import Mathlib

/-!
Verification development for the genewell wellness-report pipeline
(client/lib/client-pdf-generator.ts and the page-count estimate in
client/pages/Download.tsx).

The embedding is shallow: the TypeScript data interfaces become Lean
structures, numbers become rationals, and the jsPDF drawing calls become
explicit cursor-state transitions.  Text content fed to the renderer is
abstracted to a call-site tag plus the list of interpolated dynamic values
(a `TextKey`); the third-party text-wrapping routine `splitTextToSize` is
modelled as an environment `TextKey → ℕ` giving the wrapped line count at
each call site, since the layout depends on a text only through that count.
-/

namespace Genewell

/-- The purchased plan tier (field `tier` of `PDFGenerationOptions`,
one of "free" | "essential" | "premium" | "coaching"). -/
inductive Tier
| free
| essential
| premium
| coaching
deriving DecidableEq

/-- The literal tier string as it appears in the TypeScript union. -/
def Tier.str : Tier → String
| .free => "free"
| .essential => "essential"
| .premium => "premium"
| .coaching => "coaching"

/-- The `tierNames` display map of client-pdf-generator.ts (lines 165-170). -/
def tierDisplayName : Tier → String
| .free => "Free Edition"
| .essential => "Essential Edition"
| .premium => "Premium Edition"
| .coaching => "Complete Coaching Edition"

/-- Numeric rank of a tier under the order free < essential < premium <
coaching (spec glossary). -/
def tierRank : Tier → ℕ
| .free => 0
| .essential => 1
| .premium => 2
| .coaching => 3

/-- `a ≤ b` in the tier order. -/
def tierLe (a b : Tier) : Prop := tierRank a ≤ tierRank b

/-- `a < b` in the tier order. -/
def tierLt (a b : Tier) : Prop := tierRank a < tierRank b

instance (a b : Tier) : Decidable (tierLe a b) := by unfold tierLe; infer_instance

instance (a b : Tier) : Decidable (tierLt a b) := by unfold tierLt; infer_instance

/-- The section variants of the report (spec section 4.3); the names follow
the `=== ... ===` landmarks of client-pdf-generator.ts. -/
inductive Section
| cover
| topActions
| executiveSummary
| scienceUpdates
| metabolicProfile
| nutritionPlan
| mealPlanDetail
| sleepProtocol
| movementPlan
| stressManagement
| supplements
| progressTracking
| actionPlan
| closing
deriving DecidableEq

/-- `PersonalizationProfile` of client-pdf-generator.ts (lines 3-32);
TypeScript numbers become rationals. -/
structure PersonalizationProfile where
  name : String
  email : String
  age : ℚ
  gender : String
  estimatedHeightCm : ℚ
  estimatedWeightKg : ℚ
  estimatedBMR : ℚ
  estimatedTDEE : ℚ
  proteinGrams : ℚ
  carbsGrams : ℚ
  fatsGrams : ℚ
  stressScore : ℚ
  sleepScore : ℚ
  activityScore : ℚ
  energyScore : ℚ
  medicalConditions : List String
  digestiveIssues : List String
  foodIntolerances : List String
  skinConcerns : List String
  dietaryPreference : String
  exercisePreference : List String
  workSchedule : String
  region : String
  recommendedTests : List String
  supplementPriority : List String
  exerciseIntensity : String
  mealFrequency : ℚ
  dnaConsent : Bool
deriving DecidableEq

/-- The `calorieRange` field type of `PersonalizationInsights`. -/
structure CalorieRange where
  min : ℚ
  max : ℚ
deriving DecidableEq

/-- The `macroRatios` field type of `PersonalizationInsights`. -/
structure MacroRatios where
  protein : ℚ
  carbs : ℚ
  fats : ℚ
deriving DecidableEq

/-- One entry of the `supplementStack` field of `PersonalizationInsights`. -/
structure SupplementItem where
  name : String
  reason : String
  dosage : String
deriving DecidableEq

/-- `PersonalizationInsights` of client-pdf-generator.ts (lines 34-43). -/
structure PersonalizationInsights where
  metabolicInsight : String
  recommendedMealTimes : List String
  calorieRange : CalorieRange
  macroRatios : MacroRatios
  supplementStack : List SupplementItem
  workoutStrategy : String
  sleepStrategy : String
  stressStrategy : String
deriving DecidableEq

/-- `PersonalizationData` of client-pdf-generator.ts (lines 45-48). -/
structure PersonalizationData where
  profile : PersonalizationProfile
  insights : PersonalizationInsights
deriving DecidableEq

/-- The display language union `"en" | "hi"`. -/
inductive Lang
| en
| hi
deriving DecidableEq

/-- `PDFGenerationOptions` of client-pdf-generator.ts (lines 50-56); the
optional fields `addOns` and `language` carry their call-site defaults. -/
structure PDFGenerationOptions where
  tier : Tier
  addOns : List String
  orderId : String
  timestamp : String
  language : Lang
deriving DecidableEq

/-- The ordered section sequence the generator emits for a tier, read off the
guards of client-pdf-generator.ts: `tier === "premium" || tier === "coaching"`
for science updates, meal-plan detail and supplements; `tier !== "free"` for
the metabolic profile; `tier === "essential" || tier === "premium" ||
tier === "coaching"` for the nutrition and movement sections; everything else
is unconditional. -/
def sectionsFor (t : Tier) : List Section :=
  [Section.cover, Section.topActions, Section.executiveSummary]
  ++ (if t == Tier.premium || t == Tier.coaching then [Section.scienceUpdates] else [])
  ++ (if t != Tier.free then [Section.metabolicProfile] else [])
  ++ (if t == Tier.essential || t == Tier.premium || t == Tier.coaching then
        [Section.nutritionPlan]
        ++ (if t == Tier.premium || t == Tier.coaching then [Section.mealPlanDetail] else [])
      else [])
  ++ [Section.sleepProtocol]
  ++ (if t == Tier.essential || t == Tier.premium || t == Tier.coaching then
        [Section.movementPlan] else [])
  ++ [Section.stressManagement]
  ++ (if t == Tier.premium || t == Tier.coaching then [Section.supplements] else [])
  ++ [Section.progressTracking, Section.actionPlan, Section.closing]

/-- Modelled from the spec (section 4.3): the static minimum-tier table the
spec prescribes for section inclusion, stated for comparison with the
conditional guards actually found in the source. -/
def specMinTier : Section → Tier
| .cover => .free
| .topActions => .free
| .executiveSummary => .free
| .scienceUpdates => .premium
| .metabolicProfile => .essential
| .nutritionPlan => .essential
| .mealPlanDetail => .premium
| .sleepProtocol => .free
| .movementPlan => .essential
| .stressManagement => .free
| .supplements => .premium
| .progressTracking => .free
| .actionPlan => .free
| .closing => .free

/-! ### Filename sanitization (client-pdf-generator.ts lines 741-745)

`profile.name.toLowerCase().replace(/[^\w\s-]/g, "").replace(/\s+/g, "-")`,
then the template `sanitizedName_tier_blueprint_orderId.pdf`.  The JS word
class `\w` is `[A-Za-z0-9_]`; `\s` is modelled by `Char.isWhitespace`
(space, tab, carriage return, newline) and `toLowerCase` by the ASCII
`Char.toLower`, both adequate for ASCII input. -/

/-- A JS `\w` word character: ASCII letter, digit or underscore. -/
def isWordChar (c : Char) : Bool := c.isAlpha || c.isDigit || c == '_'

/-- A character surviving `.replace(/[^\w\s-]/g, "")`: word character,
whitespace, or hyphen. -/
def keepChar (c : Char) : Bool := isWordChar c || c.isWhitespace || c == '-'

/-- `.replace(/\s+/g, "-")`: each maximal run of whitespace becomes a single
hyphen.  The boolean flag records whether the previous character was part of
a whitespace run already replaced. -/
def collapseWs : Bool → List Char → List Char
| _, [] => []
| inRun, c :: rest =>
  if c.isWhitespace then
    (if inRun then [] else ['-']) ++ collapseWs true rest
  else
    c :: collapseWs false rest

/-- The `sanitizedName` of client-pdf-generator.ts line 741: lower-case, drop
characters outside `[\w\s-]`, collapse whitespace runs to single hyphens. -/
def sanitizeName (s : String) : String :=
  (collapseWs false ((s.toList.map Char.toLower).filter keepChar)).asString

/-- The output filename of client-pdf-generator.ts line 745. -/
def filenameFor (name : String) (t : Tier) (orderId : String) : String :=
  sanitizeName name ++ "_" ++ t.str ++ "_blueprint_" ++ orderId ++ ".pdf"

/-! ### Macro percentages (client-pdf-generator.ts lines 381-389)

`Math.round(((profile.proteinGrams * 4) / profile.estimatedTDEE) * 100)` and
the analogous carb (x4) and fat (x9) computations.  `Math.round` is
round-half-up, exactly Mathlib's `round` on ℚ. -/

/-- `proteinPct` of client-pdf-generator.ts lines 381-383. -/
def proteinPct (p : PersonalizationProfile) : ℤ :=
  round ((p.proteinGrams * 4) / p.estimatedTDEE * 100)

/-- `carbsPct` of client-pdf-generator.ts lines 384-386. -/
def carbsPct (p : PersonalizationProfile) : ℤ :=
  round ((p.carbsGrams * 4) / p.estimatedTDEE * 100)

/-- `fatsPct` of client-pdf-generator.ts lines 387-389. -/
def fatsPct (p : PersonalizationProfile) : ℤ :=
  round ((p.fatsGrams * 9) / p.estimatedTDEE * 100)

/-- The percentage sum the spec bounds in section 8. -/
def macroPctSum (p : PersonalizationProfile) : ℤ :=
  proteinPct p + carbsPct p + fatsPct p

/-! ### The render cursor (client-pdf-generator.ts lines 72-151)

A4 portrait in millimetres: width 210, height 297, `margin = 15`,
`contentWidth = pageWidth - margin * 2`.  The mutable `yPosition` and the
jsPDF page list become an explicit cursor (1-based current page, vertical
offset).  Each drawing helper returns the advanced cursor together with the
y-coordinate at which its block was drawn (the block's top). -/

/-- A4 page width in mm. -/
def pageWidth : ℚ := 210

/-- A4 page height in mm (the `pageHeight_` of line 84). -/
def pageHeight : ℚ := 297

/-- The fixed margin of line 80. -/
def margin : ℚ := 15

/-- `contentWidth` of line 81. -/
def contentWidth : ℚ := pageWidth - margin * 2

/-- The renderer's transient position state (spec: `RenderCursor`). -/
structure Cursor where
  page : ℕ
  y : ℚ
deriving DecidableEq

/-- `addNewPage` of lines 86-89: append a page, reset the offset to the top
margin. -/
def addNewPage (st : Cursor) : Cursor := ⟨st.page + 1, margin⟩

/-- `checkPageBreak` of lines 91-95: break when the needed space would cross
`pageHeight_ - margin`. -/
def checkPageBreak (spaceNeeded : ℚ) (st : Cursor) : Cursor :=
  if st.y + spaceNeeded > pageHeight - margin then addNewPage st else st

/-- `addHeaderSection` of lines 97-117: check 15, draw the title, advance 10;
with a subtitle of `n` wrapped lines advance `n * 4 + 2` more; divider line
and advance 5.  Returns the new cursor and the title's top y-coordinate. -/
def addHeaderSection (subtitleLines : Option ℕ) (st : Cursor) : Cursor × ℚ :=
  let s1 := checkPageBreak 15 st
  let s2 : Cursor := ⟨s1.page, s1.y + 10⟩
  let s3 : Cursor :=
    match subtitleLines with
    | none => s2
    | some n => ⟨s2.page, s2.y + ((n : ℚ) * 4 + 2)⟩
  (⟨s3.page, s3.y + 5⟩, s1.y)

/-- `addSubSection` of lines 119-126: check 10, draw, advance 7. -/
def addSubSection (st : Cursor) : Cursor × ℚ :=
  let s1 := checkPageBreak 10 st
  (⟨s1.page, s1.y + 7⟩, s1.y)

/-- `addText` of lines 128-141: check a fixed 8, draw the `n` wrapped lines,
advance `n * 4.5 + 2`. -/
def addText (n : ℕ) (st : Cursor) : Cursor × ℚ :=
  let s1 := checkPageBreak 8 st
  (⟨s1.page, s1.y + ((n : ℚ) * (9 / 2) + 2)⟩, s1.y)

/-- `addBulletPoint` of lines 143-151: check a fixed 6, draw the `n` wrapped
lines, advance `n * 4 + 1`. -/
def addBulletPoint (n : ℕ) (st : Cursor) : Cursor × ℚ :=
  let s1 := checkPageBreak 6 st
  (⟨s1.page, s1.y + ((n : ℚ) * 4 + 1)⟩, s1.y)

/-! ### Content blocks

A block records the call site it came from (`TextKey.site`) and the dynamic
values interpolated into its text (`TextKey.dyn`); fixed literal text is
identified by the site tag alone. -/

/-- A text together with its provenance: the call-site tag and the dynamic
values interpolated into it. -/
structure TextKey where
  site : String
  dyn : List String
deriving DecidableEq

/-- One drawing step of the generator.  `raw` is a direct `pdf.text` call
with a fixed advance and no page-break check (cover, top-actions and closing
pages); `rawSplit` is a direct call on split text advancing
`lines * per + pad`, also unchecked; the remaining variants are the checked
helpers. -/
inductive Block
| raw (k : TextKey) (advance : ℚ)
| rawSplit (k : TextKey) (per : ℚ) (pad : ℚ)
| header (k : TextKey) (subtitle : Option TextKey)
| sub (k : TextKey)
| text (k : TextKey)
| bullet (k : TextKey)
| newPage
deriving DecidableEq

/-- A measurement environment: the number of wrapped lines
`splitTextToSize` produces for the text of a given call site. -/
def MeasureEnv : Type := TextKey → ℕ

/-- Interpret one block as a cursor transition. -/
def step (env : MeasureEnv) (st : Cursor) (b : Block) : Cursor :=
  match b with
  | .raw _ a => ⟨st.page, st.y + a⟩
  | .rawSplit k per pad => ⟨st.page, st.y + (env k : ℚ) * per + pad⟩
  | .header _ subtitle => (addHeaderSection (subtitle.map env) st).1
  | .sub _ => (addSubSection st).1
  | .text k => (addText (env k) st).1
  | .bullet k => (addBulletPoint (env k) st).1
  | .newPage => addNewPage st

/-- Run the renderer over a block list. -/
def renderAll (env : MeasureEnv) (l : List Block) (st : Cursor) : Cursor :=
  l.foldl (step env) st

/-! ### The document, section by section

Each definition below lists, in source order, the drawing calls of the
corresponding region of `generatePersonalizedPDFClient`, with the dynamic
values each text interpolates. -/

/-- Helper for a dynamic-free call site. -/
def tk (site : String) : TextKey := ⟨site, []⟩

/-- Helper for a call site with interpolated values. -/
def tkd (site : String) (dyn : List String) : TextKey := ⟨site, dyn⟩

/-- Line 238: `insights.recommendedMealTimes[0]?.split(" ")[0] || "7:00"`
(an absent element, and a falsy empty first token, both fall back). -/
def firstWakeToken (i : PersonalizationInsights) : String :=
  match i.recommendedMealTimes with
  | [] => "7:00"
  | t :: _ =>
    let tok := (t.splitOn " ").headD ""
    if tok == "" then "7:00" else tok

/-- Line 253 reads `recommendedMealTimes[idx]`; a missing element prints as
the JS string "undefined". -/
def mealTimeAt (i : PersonalizationInsights) (idx : ℕ) : String :=
  i.recommendedMealTimes.getD idx "undefined"

/-- Lines 423-426: `meals[idx]` for the fixed array
`["Breakfast", "Lunch", "Dinner"]`. -/
def mealName (idx : ℕ) : String :=
  ["Breakfast", "Lunch", "Dinner"].getD idx "undefined"

/-- Lines 518-523: the nested ternary selecting the workout schedule name. -/
def workoutType (t : Tier) : String :=
  if t == Tier.essential then "3-Day Beginner"
  else if t == Tier.premium then "5-Day Intermediate"
  else "6-Day Advanced"

/-- Cover page, lines 153-205 (direct `pdf.text` calls, no page-break
checks; the intro paragraph is drawn split but not advanced past, the page
ending with `addNewPage`). -/
def coverBlocks (p : PersonalizationProfile) (o : PDFGenerationOptions) : List Block :=
  [ .raw (tk "cover.title") 15,
    .raw (tkd "cover.name" [p.name]) 12,
    .raw (tkd "cover.tierLine" [tierDisplayName o.tier]) 15,
    .raw (tkd "cover.generated" [o.timestamp]) 5,
    .raw (tkd "cover.orderId" [o.orderId]) 5,
    .raw (tkd "cover.planTier" [o.tier.str]) 8,
    .raw (tkd "cover.ageGender" [toString p.age, p.gender]) 5,
    .raw (tkd "cover.heightWeight" [toString p.estimatedHeightCm, toString p.estimatedWeightKg]) 12,
    .raw (tkd "cover.intro" [p.name]) 0,
    .newPage ]

/-- Top 3 actions page, lines 207-284 (direct calls, no checks). -/
def topActionsBlocks (p : PersonalizationProfile) (i : PersonalizationInsights) : List Block :=
  [ .raw (tkd "top3.title" [p.name]) 8,
    .rawSplit (tk "top3.subtitle") 4 3,
    .raw (tk "top3.divider") 6,
    .raw (tk "top3.action1Title") 5,
    .rawSplit (tkd "top3.action1" [firstWakeToken i]) 4 4,
    .raw (tk "top3.action2Title") 5,
    .rawSplit (tkd "top3.action2"
      [mealTimeAt i 0, mealTimeAt i 1, mealTimeAt i 2, mealTimeAt i 2]) 4 4,
    .raw (tk "top3.action3Title") 5,
    .rawSplit (tk "top3.action3") 4 6,
    .raw (tk "top3.tip") 0,
    .newPage ]

/-- Executive summary, lines 286-301. -/
def execBlocks (p : PersonalizationProfile) (i : PersonalizationInsights) : List Block :=
  [ .header (tk "exec.header") (some (tkd "exec.subtitle" [p.name])),
    .text (tkd "exec.metabolicInsight" [i.metabolicInsight]),
    .sub (tk "exec.baseline"),
    .text (tkd "exec.energy" [toString p.energyScore]),
    .text (tkd "exec.sleep" [toString p.sleepScore]),
    .text (tkd "exec.stress" [toString p.stressScore]),
    .text (tkd "exec.activity" [toString p.activityScore]),
    .sub (tk "exec.bloodWork"),
    .text (tk "exec.bloodWorkIntro") ]
  ++ (p.recommendedTests.take 6).map (fun t => .bullet (tkd "exec.test" [t]))

/-- Latest science updates, lines 303-333 (premium and coaching only). -/
def scienceBlocks : List Block :=
  [ .newPage,
    .header (tk "science.header") (some (tk "science.subtitle")),
    .text (tk "science.intro"),
    .sub (tk "science.insights"),
    .bullet (tk "science.sleep"),
    .bullet (tk "science.nutrition"),
    .bullet (tk "science.exercise"),
    .bullet (tk "science.stress") ]

/-- Metabolic profile, lines 335-413 (every paid tier). -/
def metabolicBlocks (p : PersonalizationProfile) : List Block :=
  [ .newPage,
    .header (tk "metabolic.header") (some (tkd "metabolic.subtitle" [p.name])),
    .text (tk "metabolic.basedOn"),
    .text (tkd "metabolic.bmr" [toString p.estimatedBMR]),
    .text (tk "metabolic.bmrNote"),
    .text (tkd "metabolic.tdee" [toString p.estimatedTDEE]),
    .text (tk "metabolic.tdeeNote"),
    .sub (tk "metabolic.weightMgmt"),
    .text (tkd "metabolic.maintain" [toString p.estimatedTDEE]),
    .text (tkd "metabolic.lose"
      [toString (p.estimatedTDEE - 300), toString (p.estimatedTDEE - 500)]),
    .text (tkd "metabolic.gain"
      [toString (p.estimatedTDEE + 300), toString (p.estimatedTDEE + 500)]),
    .sub (tk "metabolic.macroTargets"),
    .text (tkd "metabolic.protein" [toString p.proteinGrams, toString (proteinPct p)]),
    .text (tk "metabolic.proteinNote"),
    .text (tkd "metabolic.carbs" [toString p.carbsGrams, toString (carbsPct p)]),
    .text (tk "metabolic.carbsNote"),
    .text (tkd "metabolic.fats" [toString p.fatsGrams, toString (fatsPct p)]),
    .text (tk "metabolic.fatsNote"),
    .newPage ]

/-- Nutrition plan, lines 415-437 (essential, premium, coaching). -/
def nutritionBlocks (p : PersonalizationProfile) (i : PersonalizationInsights) : List Block :=
  [ .header (tk "nutrition.header") (some (tkd "nutrition.subtitle" [p.name])),
    .sub (tk "nutrition.mealTiming") ]
  ++ i.recommendedMealTimes.enum.map
      (fun e => .text (tkd "nutrition.mealTime" [mealName e.1, e.2]))
  ++ [ .text (tk "nutrition.timingNote"),
    .sub (tk "nutrition.framework"),
    .bullet (tk "nutrition.protein"),
    .bullet (tk "nutrition.carb"),
    .bullet (tk "nutrition.vegetable"),
    .bullet (tk "nutrition.fat") ]

/-- Meal-plan detail, lines 439-475 (premium and coaching only, nested in the
nutrition region). -/
def mealPlanBlocks : List Block :=
  [ .newPage,
    .sub (tk "mealPlan.week"),
    .text (tk "mealPlan.template"),
    .bullet (tk "mealPlan.meal1"),
    .bullet (tk "mealPlan.meal2"),
    .bullet (tk "mealPlan.meal3"),
    .bullet (tk "mealPlan.meal4"),
    .bullet (tk "mealPlan.meal5"),
    .bullet (tk "mealPlan.meal6"),
    .sub (tk "mealPlan.grocery"),
    .text (tk "mealPlan.proteins"),
    .text (tk "mealPlan.vegetables"),
    .text (tk "mealPlan.grains"),
    .text (tk "mealPlan.fatsList"),
    .sub (tk "mealPlan.hydration"),
    .bullet (tk "mealPlan.water1"),
    .bullet (tk "mealPlan.water2"),
    .bullet (tk "mealPlan.water3"),
    .bullet (tk "mealPlan.water4"),
    .bullet (tk "mealPlan.water5"),
    .newPage ]

/-- Sleep optimization protocol, lines 478-507 (all tiers; the supplement
subsection is gated on `tier !== "free"`). -/
def sleepBlocks (p : PersonalizationProfile) (i : PersonalizationInsights) (t : Tier) : List Block :=
  [ .header (tk "sleep.header") (some (tkd "sleep.subtitle" [p.name])),
    .text (tkd "sleep.strategy" [i.sleepStrategy]),
    .sub (tk "sleep.checklist"),
    .bullet (tk "sleep.consistent"),
    .bullet (tk "sleep.dark"),
    .bullet (tk "sleep.cool"),
    .bullet (tk "sleep.quiet"),
    .bullet (tk "sleep.blueLight"),
    .bullet (tk "sleep.caffeine"),
    .bullet (tk "sleep.warmBath") ]
  ++ (if t != Tier.free then
      [ .sub (tk "sleep.suppHeader"),
        .bullet (tk "sleep.magnesium"),
        .bullet (tk "sleep.theanine"),
        .bullet (tk "sleep.herbalTea"),
        .text (tk "sleep.suppNote") ]
    else [])
  ++ [ .newPage ]

/-- Movement and training plan, lines 509-569 (essential, premium,
coaching). -/
def movementBlocks (p : PersonalizationProfile) (i : PersonalizationInsights) (t : Tier) : List Block :=
  [ .header (tk "movement.header") (some (tkd "movement.subtitle" [p.name])),
    .text (tkd "movement.strategy" [i.workoutStrategy]),
    .sub (tkd "movement.schedule" [workoutType t]) ]
  ++ (if t == Tier.essential then
      [ .text (tk "movement.essMon"),
        .bullet (tk "movement.essPush"),
        .bullet (tk "movement.essSquat"),
        .bullet (tk "movement.essPlank"),
        .text (tk "movement.essWed"),
        .bullet (tk "movement.essWalk"),
        .text (tk "movement.essFri"),
        .bullet (tk "movement.essYoga") ]
    else if t == Tier.premium then
      [ .text (tk "movement.preMon"),
        .bullet (tk "movement.preMonFocus"),
        .text (tk "movement.preTue"),
        .bullet (tk "movement.preTueFocus"),
        .text (tk "movement.preWed"),
        .bullet (tk "movement.preWedFocus"),
        .text (tk "movement.preThu"),
        .bullet (tk "movement.preThuFocus"),
        .text (tk "movement.preFri"),
        .bullet (tk "movement.preFriFocus"),
        .text (tk "movement.preWeekend") ]
    else
      [ .text (tk "movement.coachProgram"),
        .text (tk "movement.coachPhases") ])
  ++ [ .sub (tk "movement.overload"),
    .text (tk "movement.overload14"),
    .text (tk "movement.overload58"),
    .text (tk "movement.overload912"),
    .newPage ]

/-- Stress management, lines 571-606 (all tiers; the advanced subsection is
gated on `tier !== "free"`). -/
def stressBlocks (p : PersonalizationProfile) (i : PersonalizationInsights) (t : Tier) : List Block :=
  [ .header (tk "stress.header") (some (tkd "stress.subtitle" [p.name])),
    .text (tkd "stress.strategy" [i.stressStrategy]),
    .sub (tk "stress.tools"),
    .bullet (tk "stress.boxBreathing"),
    .bullet (tk "stress.movement"),
    .bullet (tk "stress.social"),
    .bullet (tk "stress.fixSleep") ]
  ++ (if t != Tier.free then
      [ .sub (tk "stress.advanced"),
        .bullet (tk "stress.pmr"),
        .bullet (tk "stress.meditation"),
        .bullet (tk "stress.nature"),
        .bullet (tk "stress.creative") ]
    else [])

/-- Smart supplement strategy, lines 608-645 (premium and coaching only). -/
def supplementsBlocks (p : PersonalizationProfile) : List Block :=
  [ .newPage,
    .header (tk "supp.header") (some (tkd "supp.subtitle" [p.name])),
    .sub (tk "supp.stack") ]
  ++ p.supplementPriority.enum.map
      (fun e => .text (tkd "supp.item" [toString (e.1 + 1), e.2]))
  ++ [ .sub (tk "supp.timing"),
    .text (tk "supp.morning"),
    .bullet (tk "supp.vitaminD"),
    .bullet (tk "supp.omega3"),
    .bullet (tk "supp.multivitamin"),
    .text (tk "supp.evening"),
    .bullet (tk "supp.magnesium"),
    .sub (tk "supp.rules"),
    .bullet (tk "supp.oneAtATime"),
    .bullet (tk "supp.brands"),
    .bullet (tk "supp.foodFirst"),
    .bullet (tk "supp.doctor"),
    .bullet (tk "supp.storage") ]

/-- Progress tracking, lines 647-673 (all tiers). -/
def progressBlocks (p : PersonalizationProfile) : List Block :=
  [ .newPage,
    .header (tk "progress.header") (some (tkd "progress.subtitle" [p.name])),
    .sub (tk "progress.weekly"),
    .text (tk "progress.sunday"),
    .bullet (tk "progress.energy"),
    .bullet (tk "progress.sleep"),
    .bullet (tk "progress.stress"),
    .bullet (tk "progress.workouts"),
    .bullet (tk "progress.adherence"),
    .sub (tk "progress.monthly"),
    .bullet (tk "progress.photos"),
    .bullet (tk "progress.measurements"),
    .bullet (tk "progress.performance"),
    .bullet (tk "progress.bloodWork"),
    .bullet (tk "progress.mood"),
    .sub (tk "progress.timeline"),
    .text (tk "progress.weeks12"),
    .text (tk "progress.weeks34"),
    .text (tk "progress.weeks58"),
    .text (tk "progress.weeks912") ]

/-- 90-day action plan, lines 675-700 (all tiers). -/
def actionBlocks (p : PersonalizationProfile) : List Block :=
  [ .newPage,
    .header (tk "action.header") (some (tkd "action.subtitle" [p.name])),
    .text (tk "action.week1"),
    .bullet (tk "action.review"),
    .bullet (tk "action.bloodWork"),
    .bullet (tk "action.mealPrep"),
    .bullet (tk "action.tracking"),
    .text (tk "action.weeks24"),
    .bullet (tk "action.mealTimes"),
    .bullet (tk "action.workouts"),
    .bullet (tk "action.stressMgmt"),
    .bullet (tk "action.trackDaily"),
    .text (tk "action.weeks512"),
    .bullet (tk "action.adjust"),
    .bullet (tk "action.intensity"),
    .bullet (tk "action.refine"),
    .bullet (tk "action.habits"),
    .newPage ]

/-- Closing page, lines 702-736 (direct calls, no checks, no trailing page). -/
def closingBlocks (p : PersonalizationProfile) (o : PDFGenerationOptions) : List Block :=
  [ .raw (tk "closing.remember") 8,
    .raw (tkd "closing.roadmap" [p.name]) 10,
    .raw (tk "closing.educational") 4,
    .raw (tk "closing.consult") 4,
    .raw (tkd "closing.generatedBy" [o.orderId]) 0 ]

/-- The composed document: the ordered section sequence with each section's
block list, with the tier guards exactly as written in
`generatePersonalizedPDFClient`.  The `addOns`, `language` and the insight
fields `calorieRange`, `macroRatios` and `supplementStack` are never read. -/
def composeDoc (p : PersonalizationProfile) (i : PersonalizationInsights)
    (o : PDFGenerationOptions) : List (Section × List Block) :=
  [ (Section.cover, coverBlocks p o),
    (Section.topActions, topActionsBlocks p i),
    (Section.executiveSummary, execBlocks p i) ]
  ++ (if o.tier == Tier.premium || o.tier == Tier.coaching then
        [(Section.scienceUpdates, scienceBlocks)] else [])
  ++ (if o.tier != Tier.free then
        [(Section.metabolicProfile, metabolicBlocks p)] else [])
  ++ (if o.tier == Tier.essential || o.tier == Tier.premium || o.tier == Tier.coaching then
        [(Section.nutritionPlan, nutritionBlocks p i)]
        ++ (if o.tier == Tier.premium || o.tier == Tier.coaching then
              [(Section.mealPlanDetail, mealPlanBlocks)] else [])
      else [])
  ++ [ (Section.sleepProtocol, sleepBlocks p i o.tier) ]
  ++ (if o.tier == Tier.essential || o.tier == Tier.premium || o.tier == Tier.coaching then
        [(Section.movementPlan, movementBlocks p i o.tier)] else [])
  ++ [ (Section.stressManagement, stressBlocks p i o.tier) ]
  ++ (if o.tier == Tier.premium || o.tier == Tier.coaching then
        [(Section.supplements, supplementsBlocks p)] else [])
  ++ [ (Section.progressTracking, progressBlocks p),
       (Section.actionPlan, actionBlocks p),
       (Section.closing, closingBlocks p o) ]

/-- The document's flat block sequence. -/
def docBlocks (p : PersonalizationProfile) (i : PersonalizationInsights)
    (o : PDFGenerationOptions) : List Block :=
  ((composeDoc p i o).map Prod.snd).flatten

/-- The number of pages of the rendered document: the renderer starts on
page 1 and each appended page increments the count. -/
def pageCount (p : PersonalizationProfile) (i : PersonalizationInsights)
    (o : PDFGenerationOptions) (env : MeasureEnv) : ℕ :=
  (renderAll env (docBlocks p i o) ⟨1, margin⟩).page

/-- The full observable result of one generation run: section sequence, page
count, filename (client-pdf-generator.ts returns the blob plus filename; the
page count is the structural datum the Download page reports). -/
def generateReport (d : PersonalizationData) (o : PDFGenerationOptions)
    (env : MeasureEnv) : List Section × ℕ × String :=
  ((composeDoc d.profile d.insights o).map Prod.fst,
   pageCount d.profile d.insights o env,
   filenameFor d.profile.name o.tier o.orderId)

/-- The duplicated page-count estimate of client/pages/Download.tsx lines
155-179, transcribed increment by increment. -/
def estimatedPageCount (t : Tier) : ℕ :=
  let pc := 1
  let pc := pc + 1
  let pc := pc + 1
  let pc := if t == Tier.premium || t == Tier.coaching then pc + 1 else pc
  let pc := if t != Tier.free then pc + 1 else pc
  let pc :=
    if t == Tier.essential || t == Tier.premium || t == Tier.coaching then
      let pc := pc + 1
      if t == Tier.premium || t == Tier.coaching then pc + 1 else pc
    else pc
  let pc := pc + 1
  let pc := if t == Tier.essential || t == Tier.premium || t == Tier.coaching then pc + 1 else pc
  let pc := pc + 1
  let pc := if t == Tier.premium || t == Tier.coaching then pc + 1 else pc
  let pc := pc + 1
  let pc := pc + 1
  pc

/-! ### Concrete fixtures

A sample quiz profile matching the end-to-end scenario of spec section 8
(age 30, gender female, wake preference 07:00, essential tier, no add-ons),
used by counterexamples and witnesses. -/

/-- Sample profile (age 30, female; gram targets consistent with the TDEE:
4·125 + 4·125 + 9·100 = 1900). -/
def cProfile : PersonalizationProfile :=
  { name := "Asha Rao", email := "asha@example.com", age := 30, gender := "female",
    estimatedHeightCm := 162, estimatedWeightKg := 58, estimatedBMR := 1350,
    estimatedTDEE := 1900, proteinGrams := 125, carbsGrams := 125, fatsGrams := 100,
    stressScore := 55, sleepScore := 60, activityScore := 45, energyScore := 50,
    medicalConditions := [], digestiveIssues := [], foodIntolerances := [],
    skinConcerns := [], dietaryPreference := "vegetarian",
    exercisePreference := ["yoga"], workSchedule := "day", region := "south",
    recommendedTests := ["CBC", "Vitamin D", "TSH", "HbA1c", "Lipid Panel", "B12", "Iron"],
    supplementPriority := ["Vitamin D3", "Omega-3", "Magnesium"],
    exerciseIntensity := "moderate", mealFrequency := 3, dnaConsent := false }

/-- Sample insights for the 07:00 wake preference. -/
def cInsights : PersonalizationInsights :=
  { metabolicInsight := "Balanced metabolism with steady energy",
    recommendedMealTimes := ["7:30 AM", "12:30 PM", "7:00 PM"],
    calorieRange := ⟨1600, 2000⟩, macroRatios := ⟨26, 26, 47⟩,
    supplementStack := [⟨"Vitamin D3", "low sun exposure", "2000 IU"⟩],
    workoutStrategy := "Start with three weekly sessions",
    sleepStrategy := "Fix the wake time first",
    stressStrategy := "Daily box breathing" }

/-- Sample options: essential tier, empty add-on set. -/
def cOptions : PDFGenerationOptions :=
  { tier := Tier.essential, addOns := [], orderId := "ord42",
    timestamp := "2026-01-01T00:00:00Z", language := Lang.en }

/-- Sample options at the free tier (same order). -/
def cOptionsFree : PDFGenerationOptions :=
  { cOptions with tier := Tier.free }

/-- The all-single-line measurement environment. -/
def envOne : MeasureEnv := fun _ => 1

/-- A profile with positive TDEE but zero gram targets (every field value is
admitted by the `PersonalizationProfile` interface). -/
def zeroMacroProfile : PersonalizationProfile :=
  { cProfile with proteinGrams := 0, carbsGrams := 0, fatsGrams := 0, estimatedTDEE := 2000 }

/-! ### Structural lemmas shared by the claims -/

/-- The section sequence of the composed document is `sectionsFor` of the
options' tier, for every profile and insights value. -/
lemma composeDoc_sections (p : PersonalizationProfile) (i : PersonalizationInsights)
    (o : PDFGenerationOptions) : (composeDoc p i o).map Prod.fst = sectionsFor o.tier := by
  rcases o with ⟨t, a, oid, ts, lg⟩
  cases t <;> rfl

/-- After any page-break check with nonnegative needed space the cursor sits
at or above the bottom margin line. -/
lemma checkPageBreak_y_le (s : ℚ) (st : Cursor) (hs : 0 ≤ s) :
    (checkPageBreak s st).y ≤ pageHeight - margin := by
  unfold checkPageBreak addNewPage
  split_ifs with h
  · show margin ≤ pageHeight - margin
    norm_num [margin, pageHeight]
  · have h' : st.y + s ≤ pageHeight - margin := le_of_not_lt h
    linarith

/-- 1 for an explicit page break, 0 for any other block. -/
def breakOne : Block → ℕ
| .newPage => 1
| _ => 0

/-- The number of explicit page breaks in a block list. -/
def breakCount : List Block → ℕ
| [] => 0
| b :: l => breakOne b + breakCount l

lemma breakCount_append (l1 l2 : List Block) :
    breakCount (l1 ++ l2) = breakCount l1 + breakCount l2 := by
  induction l1 with
  | nil => simp [breakCount]
  | cons b l ih => simp [breakCount, ih]; ring

lemma breakCount_map_text {α : Type} (l : List α) (f : α → TextKey) :
    breakCount (l.map fun x => Block.text (f x)) = 0 := by
  induction l with
  | nil => rfl
  | cons a l ih => simp [breakCount, breakOne, ih]

lemma breakCount_map_bullet {α : Type} (l : List α) (f : α → TextKey) :
    breakCount (l.map fun x => Block.bullet (f x)) = 0 := by
  induction l with
  | nil => rfl
  | cons a l ih => simp [breakCount, breakOne, ih]

/-- A page-break check never removes pages. -/
lemma checkPageBreak_page_ge (s : ℚ) (st : Cursor) :
    st.page ≤ (checkPageBreak s st).page := by
  unfold checkPageBreak addNewPage
  split_ifs <;> simp

/-- A render step never removes pages, and an explicit break adds one. -/
lemma step_page_ge (env : MeasureEnv) (st : Cursor) (b : Block) :
    st.page + breakOne b ≤ (step env st b).page := by
  cases b with
  | raw k a => simp [step, breakOne]
  | rawSplit k per pad => simp [step, breakOne]
  | header k subtitle =>
    cases subtitle <;>
      simpa [step, breakOne, addHeaderSection] using checkPageBreak_page_ge 15 st
  | sub k => simpa [step, breakOne, addSubSection] using checkPageBreak_page_ge 10 st
  | text k => simpa [step, breakOne, addText] using checkPageBreak_page_ge 8 st
  | bullet k => simpa [step, breakOne, addBulletPoint] using checkPageBreak_page_ge 6 st
  | newPage => simp [step, breakOne, addNewPage]

/-- The final page index is at least the starting one plus the explicit
breaks (dynamic overflow breaks only add more). -/
lemma renderAll_page_ge (env : MeasureEnv) :
    ∀ (l : List Block) (st : Cursor), st.page + breakCount l ≤ (renderAll env l st).page := by
  intro l
  induction l with
  | nil => intro st; simp [renderAll, breakCount]
  | cons b l ih =>
    intro st
    have h1 := step_page_ge env st b
    have h2 := ih (step env st b)
    calc st.page + breakCount (b :: l)
        = (st.page + breakOne b) + breakCount l := by simp [breakCount]; ring
      _ ≤ (step env st b).page + breakCount l := by omega
      _ ≤ (renderAll env l (step env st b)).page := h2
      _ = (renderAll env (b :: l) st).page := by simp [renderAll, List.foldl]

lemma bc_cover (p : PersonalizationProfile) (o : PDFGenerationOptions) :
    breakCount (coverBlocks p o) = 1 := rfl

lemma bc_top (p : PersonalizationProfile) (i : PersonalizationInsights) :
    breakCount (topActionsBlocks p i) = 1 := rfl

lemma bc_exec (p : PersonalizationProfile) (i : PersonalizationInsights) :
    breakCount (execBlocks p i) = 0 := by
  unfold execBlocks
  rw [breakCount_append, breakCount_map_bullet]
  simp only [breakCount, breakOne]

lemma bc_science : breakCount scienceBlocks = 1 := rfl

lemma bc_metabolic (p : PersonalizationProfile) :
    breakCount (metabolicBlocks p) = 2 := by
  simp only [metabolicBlocks, breakCount, breakOne]

lemma bc_nutrition (p : PersonalizationProfile) (i : PersonalizationInsights) :
    breakCount (nutritionBlocks p i) = 0 := by
  unfold nutritionBlocks
  rw [breakCount_append, breakCount_append, breakCount_map_text]
  simp only [breakCount, breakOne]

lemma bc_mealPlan : breakCount mealPlanBlocks = 2 := rfl

lemma bc_sleep (p : PersonalizationProfile) (i : PersonalizationInsights) (t : Tier) :
    breakCount (sleepBlocks p i t) = 1 := by
  cases t <;> rfl

lemma bc_movement (p : PersonalizationProfile) (i : PersonalizationInsights) (t : Tier) :
    breakCount (movementBlocks p i t) = 1 := by
  cases t <;> rfl

lemma bc_stress (p : PersonalizationProfile) (i : PersonalizationInsights) (t : Tier) :
    breakCount (stressBlocks p i t) = 0 := by
  cases t <;> rfl

lemma bc_supp (p : PersonalizationProfile) :
    breakCount (supplementsBlocks p) = 1 := by
  unfold supplementsBlocks
  rw [breakCount_append, breakCount_append, breakCount_map_text]
  simp only [breakCount, breakOne]

lemma bc_progress (p : PersonalizationProfile) :
    breakCount (progressBlocks p) = 1 := rfl

lemma bc_action (p : PersonalizationProfile) :
    breakCount (actionBlocks p) = 2 := rfl

lemma bc_closing (p : PersonalizationProfile) (o : PDFGenerationOptions) :
    breakCount (closingBlocks p o) = 0 := rfl

/-- A premium document contains exactly 13 explicit page breaks. -/
lemma breakCount_premium (p : PersonalizationProfile) (i : PersonalizationInsights)
    (a : List String) (oid ts : String) (lg : Lang) :
    breakCount (docBlocks p i ⟨Tier.premium, a, oid, ts, lg⟩) = 13 := by
  simp [docBlocks, composeDoc, breakCount_append, bc_cover, bc_top, bc_exec,
    bc_science, bc_metabolic, bc_nutrition, bc_mealPlan, bc_sleep, bc_movement,
    bc_stress, bc_supp, bc_progress, bc_action, bc_closing]

/-- A character of the collapsed list is either the replacement hyphen or a
non-whitespace character of the input list. -/
lemma mem_collapseWs {c : Char} :
    ∀ (l : List Char) (b : Bool), c ∈ collapseWs b l →
      c = '-' ∨ (c ∈ l ∧ c.isWhitespace = false) := by
  intro l
  induction l with
  | nil => intro b h; simp [collapseWs] at h
  | cons a l ih =>
    intro b h
    rw [show collapseWs b (a :: l)
        = if a.isWhitespace then (if b then [] else ['-']) ++ collapseWs true l
          else a :: collapseWs false l from rfl] at h
    by_cases ha : a.isWhitespace = true
    · rw [if_pos ha] at h
      rcases List.mem_append.mp h with h1 | h2
      · cases b
        · simp at h1
          exact Or.inl h1
        · simp at h1
      · rcases ih true h2 with h3 | ⟨h4, h5⟩
        · exact Or.inl h3
        · exact Or.inr ⟨List.mem_cons_of_mem _ h4, h5⟩
    · rw [if_neg ha] at h
      simp only [Bool.not_eq_true] at ha
      rcases List.mem_cons.mp h with h1 | h2
      · subst h1
        exact Or.inr ⟨List.mem_cons_self _ _, ha⟩
      · rcases ih false h2 with h3 | ⟨h4, h5⟩
        · exact Or.inl h3
        · exact Or.inr ⟨List.mem_cons_of_mem _ h4, h5⟩

/-- Every character of a sanitized name is a word character or a hyphen, and
never whitespace. -/
lemma sanitize_chars (s : String) :
    ((sanitizeName s).toList.all
      (fun c => (isWordChar c || c == '-') && !c.isWhitespace)) = true := by
  rw [List.all_eq_true]
  intro c hc
  have hc' : c ∈ collapseWs false ((s.toList.map Char.toLower).filter keepChar) := hc
  rcases mem_collapseWs _ _ hc' with h | ⟨hm, hw⟩
  · subst h; decide
  · have hk : keepChar c = true := List.of_mem_filter hm
    simp only [keepChar, Bool.or_eq_true, hw] at hk
    simp only [Bool.and_eq_true, Bool.not_eq_true', hw, Bool.or_eq_true, and_true]
    rcases hk with (h1 | h2) | h3
    · exact Or.inl h1
    · exact absurd h2 (by simp [hw])
    · exact Or.inr h3

/-! ### The claims -/

/-- C1 counterexample: at tier essential with no add-ons (the claimed
scenario instantiated at the sample inputs) the generator also emits the
closing section, which the claimed exact section set excludes — so some
section outside that set is emitted. -/
theorem C1_counterexample :
    Section.closing ∈ (composeDoc cProfile cInsights cOptions).map Prod.fst
    ∧ Section.closing ∉
        ([Section.cover, Section.topActions, Section.executiveSummary,
          Section.metabolicProfile, Section.nutritionPlan, Section.sleepProtocol,
          Section.movementPlan, Section.stressManagement, Section.progressTracking,
          Section.actionPlan] : List Section) := by
  constructor
  · rw [composeDoc_sections]
    decide
  · decide

/-- C1 (amended): for every profile and insights at tier essential with any
add-on set, the emitted sections are exactly cover, top-actions,
executive-summary, metabolic-profile, nutrition-plan, sleep-protocol,
movement-plan, stress-management, progress-tracking, action-plan and the
closing section, and science-updates, meal-plan-detail and supplements are
omitted. -/
theorem C1_essentialSections :
    (∀ (p : PersonalizationProfile) (i : PersonalizationInsights)
       (a : List String) (oid ts : String) (lg : Lang),
       (composeDoc p i ⟨Tier.essential, a, oid, ts, lg⟩).map Prod.fst
         = sectionsFor Tier.essential)
    ∧ sectionsFor Tier.essential
        = [Section.cover, Section.topActions, Section.executiveSummary,
           Section.metabolicProfile, Section.nutritionPlan, Section.sleepProtocol,
           Section.movementPlan, Section.stressManagement, Section.progressTracking,
           Section.actionPlan, Section.closing]
    ∧ Section.scienceUpdates ∉ sectionsFor Tier.essential
    ∧ Section.mealPlanDetail ∉ sectionsFor Tier.essential
    ∧ Section.supplements ∉ sectionsFor Tier.essential := by
  refine ⟨fun p i a oid ts lg => composeDoc_sections p i _, ?_, ?_, ?_, ?_⟩ <;> decide

/-- C2: with the same profile, insights and add-on set, a strictly lower
tier's section sequence is a subset of the higher tier's. -/
theorem C2_tierMonotone (p : PersonalizationProfile) (i : PersonalizationInsights)
    (o1 o2 : PDFGenerationOptions) (h : tierLt o1.tier o2.tier) :
    (composeDoc p i o1).map Prod.fst ⊆ (composeDoc p i o2).map Prod.fst := by
  rw [composeDoc_sections, composeDoc_sections]
  revert h
  generalize o1.tier = t1
  generalize o2.tier = t2
  cases t1 <;> cases t2 <;> decide

/-- C2 witness: free < essential, and the free sections embed in the
essential ones at the sample inputs. -/
theorem C2_witness :
    (composeDoc cProfile cInsights cOptionsFree).map Prod.fst
      ⊆ (composeDoc cProfile cInsights cOptions).map Prod.fst :=
  C2_tierMonotone cProfile cInsights cOptionsFree cOptions (by decide)

/-- C3 counterexample: `addText` on a three-line block at offset 270 checks
only its fixed constant 8, so no page break happens (the cursor stays on
page 1 and the block is drawn at 270) although the block's measured required
space, 3 × 4.5 + 2 = 15.5, would cross `pageHeight - margin` — the space
checked before placing the block is not the block's measured vertical
space. -/
theorem C3_counterexample :
    (addText 3 ⟨1, 270⟩).2 = 270
    ∧ (addText 3 ⟨1, 270⟩).1 = ⟨1, 571/2⟩
    ∧ ¬((270 : ℚ) + ((3 : ℚ) * (9/2) + 2) ≤ pageHeight - margin) := by
  refine ⟨?_, ?_, ?_⟩ <;>
    norm_num [addText, checkPageBreak, addNewPage, pageHeight, margin, Cursor.mk.injEq]

/-- C3 (amended): every page break resets the cursor to exactly the top
margin, and a block placed through any of the checked helpers
(`addText`, `addBulletPoint`, `addSubSection`, `addHeaderSection`) is never
drawn with its top below `pageHeight - margin`; the helpers, however, check
fixed per-kind constants (8, 6, 10, 15), not the measured block height, and
the cover, top-actions and closing blocks are drawn with no check at all. -/
theorem C3_cursorInvariants :
    (∀ st : Cursor, (addNewPage st).y = margin ∧ (addNewPage st).page = st.page + 1)
    ∧ (∀ (st : Cursor) (n : ℕ), (addText n st).2 ≤ pageHeight - margin)
    ∧ (∀ (st : Cursor) (n : ℕ), (addBulletPoint n st).2 ≤ pageHeight - margin)
    ∧ (∀ st : Cursor, (addSubSection st).2 ≤ pageHeight - margin)
    ∧ (∀ (st : Cursor) (sub : Option ℕ), (addHeaderSection sub st).2 ≤ pageHeight - margin) := by
  refine ⟨fun st => ⟨rfl, rfl⟩, ?_, ?_, ?_, ?_⟩
  · intro st n
    exact checkPageBreak_y_le 8 st (by norm_num)
  · intro st n
    exact checkPageBreak_y_le 6 st (by norm_num)
  · intro st
    exact checkPageBreak_y_le 10 st (by norm_num)
  · intro st sub
    exact checkPageBreak_y_le 15 st (by norm_num)

/-- C4 counterexample: a profile with positive TDEE whose gram-target fields
are all zero yields a percentage sum of 0, outside [98, 102] — over
arbitrary profile field values the bound fails. -/
theorem C4_counterexample :
    (0 : ℚ) < zeroMacroProfile.estimatedTDEE
    ∧ macroPctSum zeroMacroProfile = 0
    ∧ ¬(98 ≤ macroPctSum zeroMacroProfile ∧ macroPctSum zeroMacroProfile ≤ 102) := by
  have h : macroPctSum zeroMacroProfile = 0 := by
    norm_num [macroPctSum, proteinPct, carbsPct, fatsPct, zeroMacroProfile, cProfile]
  refine ⟨by norm_num [zeroMacroProfile, cProfile], h, ?_⟩
  rw [h]
  norm_num

/-- C4 (amended): whenever the profile's gram targets are calorie-consistent
with its TDEE (4·protein + 4·carbs + 9·fats = TDEE, the relation the
analyzer's derived targets satisfy) and the TDEE is positive, the sum of the
three rounded percentages lies in [98, 102]. -/
theorem C4_macroSum (p : PersonalizationProfile)
    (hT : 0 < p.estimatedTDEE)
    (hcal : 4 * p.proteinGrams + 4 * p.carbsGrams + 9 * p.fatsGrams = p.estimatedTDEE) :
    98 ≤ macroPctSum p ∧ macroPctSum p ≤ 102 := by
  have hT' : p.estimatedTDEE ≠ 0 := ne_of_gt hT
  have h1 := abs_sub_round (p.proteinGrams * 4 / p.estimatedTDEE * 100)
  have h2 := abs_sub_round (p.carbsGrams * 4 / p.estimatedTDEE * 100)
  have h3 := abs_sub_round (p.fatsGrams * 9 / p.estimatedTDEE * 100)
  rw [abs_le] at h1 h2 h3
  have hsum : p.proteinGrams * 4 / p.estimatedTDEE * 100
      + p.carbsGrams * 4 / p.estimatedTDEE * 100
      + p.fatsGrams * 9 / p.estimatedTDEE * 100 = 100 := by
    field_simp
    linear_combination 100 * hcal
  have hS : ((macroPctSum p : ℤ) : ℚ)
      = (round (p.proteinGrams * 4 / p.estimatedTDEE * 100) : ℚ)
      + (round (p.carbsGrams * 4 / p.estimatedTDEE * 100) : ℚ)
      + (round (p.fatsGrams * 9 / p.estimatedTDEE * 100) : ℚ) := by
    simp only [macroPctSum, proteinPct, carbsPct, fatsPct]
    push_cast
    ring
  constructor
  · have hq : (98 : ℚ) ≤ ((macroPctSum p : ℤ) : ℚ) := by
      rw [hS]
      linarith [h1.1, h2.1, h3.1]
    exact_mod_cast hq
  · have hq : ((macroPctSum p : ℤ) : ℚ) ≤ 102 := by
      rw [hS]
      linarith [h1.2, h2.2, h3.2]
    exact_mod_cast hq

/-- C4 witness: the sample profile has consistent targets
(4·125 + 4·125 + 9·100 = 1900) and its percentage sum is within bounds. -/
theorem C4_witness : 98 ≤ macroPctSum cProfile ∧ macroPctSum cProfile ≤ 102 :=
  C4_macroSum cProfile (by norm_num [cProfile]) (by norm_num [cProfile])

/-- C5: the pipeline is a pure function of its inputs — two runs on equal
personalization data, options and measurements produce equal section
sequences, page counts and filenames. -/
theorem C5_deterministic (d1 d2 : PersonalizationData) (o1 o2 : PDFGenerationOptions)
    (e1 e2 : MeasureEnv) (hd : d1 = d2) (ho : o1 = o2) (he : e1 = e2) :
    generateReport d1 o1 e1 = generateReport d2 o2 e2 := by
  subst hd; subst ho; subst he; rfl

/-- C5 witness: two runs at the sample inputs coincide. -/
theorem C5_witness :
    generateReport ⟨cProfile, cInsights⟩ cOptions envOne
      = generateReport ⟨cProfile, cInsights⟩ cOptions envOne :=
  C5_deterministic _ _ _ _ _ _ rfl rfl rfl

/-- C6 counterexample: for the name "a-b" the code keeps the hyphen (the
stripping class `[^\w\s-]` excepts it) and appends the ".pdf" extension, so
the filename differs from the claimed
`<non-word-stripped name>_essential_blueprint_<orderId>`. -/
theorem C6_counterexample :
    filenameFor "a-b" Tier.essential "o1" = "a-b_essential_blueprint_o1.pdf"
    ∧ filenameFor "a-b" Tier.essential "o1" ≠ "ab_essential_blueprint_o1" := by
  refine ⟨?_, ?_⟩ <;> decide

/-- C6 (amended): the filename is the sanitized name, an underscore, the
tier, "blueprint", the order id and a ".pdf" extension; sanitization
lower-cases the name, strips characters that are neither word characters,
whitespace nor hyphens, and replaces each whitespace run by one hyphen, so
every character of the sanitized name is a word character or a hyphen and
never whitespace. -/
theorem C6_filename :
    (∀ name oid : String, filenameFor name Tier.essential oid
        = sanitizeName name ++ "_" ++ "essential" ++ "_blueprint_" ++ oid ++ ".pdf")
    ∧ (∀ s : String, ((sanitizeName s).toList.all
        (fun c => (isWordChar c || c == '-') && !c.isWhitespace)) = true)
    ∧ sanitizeName "Dr. A-B  Cde" = "dr-a-b-cde" := by
  exact ⟨fun name oid => rfl, sanitize_chars, by decide⟩

/-- C7: the Download page's duplicated estimate reports 13 pages for a
premium document, but the renderer inserts 13 explicit page breaks after the
cover page, so the rendered document has at least 14 pages whatever the
profile, insights, add-ons and text measurements — the call-site estimate
does not equal the renderer's page count. -/
theorem C7_pageCountDrift :
    estimatedPageCount Tier.premium = 13
    ∧ (∀ (p : PersonalizationProfile) (i : PersonalizationInsights)
         (a : List String) (oid ts : String) (lg : Lang) (env : MeasureEnv),
         14 ≤ pageCount p i ⟨Tier.premium, a, oid, ts, lg⟩ env) := by
  refine ⟨rfl, ?_⟩
  intro p i a oid ts lg env
  have h := renderAll_page_ge env (docBlocks p i ⟨Tier.premium, a, oid, ts, lg⟩) ⟨1, margin⟩
  rw [breakCount_premium] at h
  simpa [pageCount] using h

/-- C8: section inclusion is exactly the comparison of the configured tier
with the section's minimum tier (metabolic-profile ≥ essential,
science-updates, supplements and meal-plan-detail ≥ premium, nutrition and
movement ≥ essential, the rest free), and every tier's sequence is a
subsequence of the one fixed total order (the coaching-tier sequence). -/
theorem C8_minTierTable :
    (∀ (t : Tier) (s : Section), s ∈ sectionsFor t ↔ tierLe (specMinTier s) t)
    ∧ (∀ t : Tier, List.Sublist (sectionsFor t) (sectionsFor Tier.coaching)) := by
  constructor
  · intro t s
    cases t <;> cases s <;> decide
  · intro t
    cases t <;> decide

/-- C9: two option values differing only in their add-on set produce the
same section sequence, page count and filename — the add-on identifiers are
never read. -/
theorem C9_addOnsUnused (d : PersonalizationData) (env : MeasureEnv) (t : Tier)
    (a1 a2 : List String) (oid ts : String) (lg : Lang) :
    generateReport d ⟨t, a1, oid, ts, lg⟩ env = generateReport d ⟨t, a2, oid, ts, lg⟩ env := rfl

/-- C10: two insights values agreeing on `metabolicInsight`,
`recommendedMealTimes`, `workoutStrategy`, `sleepStrategy` and
`stressStrategy` but with arbitrary `calorieRange`, `macroRatios` and
`supplementStack` yield the identical composed document and report: the
renderer recomputes the macro percentages from the profile's gram targets
and TDEE and lists the profile's `supplementPriority`, never reading those
three insight fields. -/
theorem C10_insightFieldsUnused (p : PersonalizationProfile) (o : PDFGenerationOptions)
    (env : MeasureEnv) (mi : String) (mt : List String) (cr1 cr2 : CalorieRange)
    (mr1 mr2 : MacroRatios) (ss1 ss2 : List SupplementItem) (ws sls sts : String) :
    composeDoc p ⟨mi, mt, cr1, mr1, ss1, ws, sls, sts⟩ o
      = composeDoc p ⟨mi, mt, cr2, mr2, ss2, ws, sls, sts⟩ o
    ∧ generateReport ⟨p, ⟨mi, mt, cr1, mr1, ss1, ws, sls, sts⟩⟩ o env
      = generateReport ⟨p, ⟨mi, mt, cr2, mr2, ss2, ws, sls, sts⟩⟩ o env :=
  ⟨rfl, rfl⟩

end Genewell
